import Mathlib

/-!
Shallow embedding of the GC9A01A round-display driver
(src/esphome/external_components/gc9a01_display/gc9a01a_display.cpp).

Bus and pin side effects are modelled as an event trace (`Ev`); driver
member state as `DriverState`.  Each C++ method becomes a Lean function
returning the event trace it emits (and the updated state where the
method mutates members).
-/

namespace GC9A01A

/-- Modelled from the spec: the panel geometry constants are declared in the
missing header gc9a01a_display.h; spec section 3 fixes width = height = 240. -/
def GC9A01A_WIDTH : Nat := 240

/-- Modelled from the spec: panel height, 240 (spec section 3, PanelGeometry). -/
def GC9A01A_HEIGHT : Nat := 240

/-- Modelled from the spec: command-byte constants declared in the missing
header; the values are the standard GC9A01A/MIPI-DCS opcodes the names denote
(column-address-set). Claims depend only on the names, not the values. -/
def GC9A01A_CASET : Nat := 0x2A

/-- Row-address-set opcode (missing header, standard value). -/
def GC9A01A_RASET : Nat := 0x2B

/-- Memory-write opcode (missing header, standard value). -/
def GC9A01A_RAMWR : Nat := 0x2C

/-- Software-reset opcode (missing header, standard value). -/
def GC9A01A_SWRESET : Nat := 0x01

/-- Sleep-out opcode (missing header, standard value). -/
def GC9A01A_SLPOUT : Nat := 0x11

/-- Pixel-format (COLMOD) opcode (missing header, standard value). -/
def GC9A01A_COLMOD : Nat := 0x3A

/-- Memory-access-control opcode (missing header, standard value). -/
def GC9A01A_MADCTL : Nat := 0x36

/-- Display-inversion-on opcode (missing header, standard value). -/
def GC9A01A_INVON : Nat := 0x21

/-- Normal-display-mode-on opcode (missing header, standard value). -/
def GC9A01A_NORON : Nat := 0x13

/-- Display-on opcode (missing header, standard value). -/
def GC9A01A_DISPON : Nat := 0x29

/-- MADCTL BGR-order bit (missing header, standard value). -/
def GC9A01A_MADCTL_BGR : Nat := 0x08

/-- Range of a uint32_t, for the static test_delay_counter. -/
def U32 : Nat := 4294967296

/-- Observable side effects of the driver: pin writes, SPI bus ownership
(enable = begin, disable = end), bytes on the wire, blocking delays. -/
inductive Ev where
  | dcWrite (level : Bool)
  | resetWrite (level : Bool)
  | backlightWrite (level : Bool)
  | spiSetup
  | dcPinSetup
  | backlightPinSetup
  | enable
  | disable
  | writeByte (b : Nat)
  | readBytes (n : Nat)
  | delayMs (n : Nat)
deriving DecidableEq, Repr

/-- ESPHome Color: four independent 8-bit channels (red, green, blue, white). -/
structure Color where
  red : Nat
  green : Nat
  blue : Nat
  white : Nat
deriving DecidableEq, Repr

/-- GC9A01ADisplay::color_to_565_ (gc9a01a_display.cpp lines 574-585):
scale each 8-bit channel by truncating integer multiply-divide and pack
5-6-5. Fields are uint8_t, so values are taken mod 256. -/
def color_to_565_ (color : Color) : Nat :=
  let red_color := (color.red % 256) * 31 / 255
  let green_color := (color.green % 256) * 63 / 255
  let blue_color := (color.blue % 256) * 31 / 255
  (red_color <<< 11) ||| (green_color <<< 5) ||| blue_color

/-- GC9A01ADisplay::write_command_ (lines 514-528): DC low, enable (CS),
one command byte, disable. The argument is a uint8_t. -/
def write_command_ (cmd : Nat) : List Ev :=
  [Ev.dcWrite false, Ev.enable, Ev.writeByte (cmd % 256), Ev.disable]

/-- GC9A01ADisplay::write_data_ (lines 530-544): DC high, enable, one data
byte, disable. -/
def write_data_ (data : Nat) : List Ev :=
  [Ev.dcWrite true, Ev.enable, Ev.writeByte (data % 256), Ev.disable]

/-- GC9A01ADisplay::write_data_16_ (lines 546-553): DC high, enable, high
byte then low byte of the uint16_t argument, disable. -/
def write_data_16_ (data : Nat) : List Ev :=
  [Ev.dcWrite true, Ev.enable,
   Ev.writeByte (data % 65536 / 256), Ev.writeByte (data % 256), Ev.disable]

/-- The byte stream of the for loop in write_color_ (lines 565-569):
count repetitions of (high byte, low byte). -/
def burstBytes (hi lo : Nat) : Nat → List Ev
  | 0 => []
  | n + 1 => Ev.writeByte hi :: Ev.writeByte lo :: burstBytes hi lo n

/-- GC9A01ADisplay::write_color_ (lines 555-572): DC high, one enable, the
repeated (high, low) byte pairs, one disable. The color is a uint16_t. -/
def write_color_ (color : Nat) (count : Nat) : List Ev :=
  [Ev.dcWrite true, Ev.enable] ++
    burstBytes (color % 65536 / 256) (color % 256) count ++ [Ev.disable]

/-- GC9A01ADisplay::set_addr_window_ (lines 501-512): CASET, x1, x2, RASET,
y1, y2, RAMWR. Arguments are uint16_t. -/
def set_addr_window_ (x1 y1 x2 y2 : Nat) : List Ev :=
  write_command_ GC9A01A_CASET ++ write_data_16_ x1 ++ write_data_16_ x2 ++
  write_command_ GC9A01A_RASET ++ write_data_16_ y1 ++ write_data_16_ y2 ++
  write_command_ GC9A01A_RAMWR

/-- Driver member/static state. update_tick_count (member update_counter_)
is declared in the missing header; the spec calls it an integer, so it is a
Nat here. test_delay_counter is a static uint32_t in the cpp, kept mod 2^32. -/
structure DriverState where
  is_ready_ : Bool
  componentFailed : Bool
  backlightPresent : Bool
  gpio_diagnostics_done : Bool
  test_delay_counter : Nat
  update_counter_ : Nat
deriving DecidableEq, Repr

/-- GC9A01ADisplay::fill (lines 193-216): if not ready, return; otherwise
set the full-panel address window and write width*height copies of the
converted color. No driver member is mutated. -/
def fill (s : DriverState) (color : Color) : List Ev × DriverState :=
  if s.is_ready_ = false then ([], s)
  else
    (set_addr_window_ 0 0 (GC9A01A_WIDTH - 1) (GC9A01A_HEIGHT - 1) ++
       write_color_ (color_to_565_ color) (GC9A01A_WIDTH * GC9A01A_HEIGHT), s)

/-- C conversion of a (possibly negative) int to uint16_t: reduce mod 2^16. -/
def intToU16 (i : Int) : Nat := (i % 65536).toNat

/-- GC9A01ADisplay::draw_absolute_pixel_internal (lines 218-234): bounds
check first, then readiness check, then one-pixel window plus one 16-bit
data word. No driver member is mutated. -/
def draw_absolute_pixel_internal (s : DriverState) (x y : Int) (color : Color) :
    List Ev × DriverState :=
  if x < 0 ∨ 240 ≤ x ∨ y < 0 ∨ 240 ≤ y then ([], s)
  else if s.is_ready_ = false then ([], s)
  else
    (set_addr_window_ (intToU16 x) (intToU16 y) (intToU16 x) (intToU16 y) ++
       write_data_16_ (color_to_565_ color), s)

/-- Event classifier: SPI enable (bus-ownership begin). -/
def isEnable : Ev → Bool
  | Ev.enable => true
  | _ => false

/-- Event classifier: SPI disable (bus-ownership end). -/
def isDisable : Ev → Bool
  | Ev.disable => true
  | _ => false

/-- Event classifier: a write to the reset pin. -/
def isResetWrite : Ev → Bool
  | Ev.resetWrite _ => true
  | _ => false

/-- Event classifier: a bus read (only the self-test reads). -/
def isRead : Ev → Bool
  | Ev.readBytes _ => true
  | _ => false

/-- Number of bus-ownership begins in a trace. -/
def countEnable (tr : List Ev) : Nat := (tr.filter isEnable).length

/-- Number of bus-ownership ends in a trace. -/
def countDisable (tr : List Ev) : Nat := (tr.filter isDisable).length

/-- Number of reset-pin writes in a trace. -/
def countResetWrites (tr : List Ev) : Nat := (tr.filter isResetWrite).length

/-- Whether a trace contains the diagnostic bus read of the self-test. -/
def selfTestIn (tr : List Ev) : Bool := tr.any isRead

/-- A concrete driver state that has completed setup (ready, counters 0). -/
def readyTestState : DriverState :=
  { is_ready_ := true, componentFailed := false, backlightPresent := false,
    gpio_diagnostics_done := false, test_delay_counter := 0, update_counter_ := 0 }

/-- The one-shot SPI self-test body (update, lines 73-89): enable, send the
0x9F read-ID command byte, read a 3-byte response, disable. -/
def selfTestTrace : List Ev :=
  [Ev.enable, Ev.writeByte 0x9F, Ev.readBytes 3, Ev.disable]

/-- The every-20-updates diagnostic report (update, lines 127-176): log
output only, plus — when a backlight pin exists — a re-write of the
backlight pin to high and a 10 ms delay. -/
def diagReportTrace (s : DriverState) : List Ev :=
  if s.update_counter_ % 20 = 0 then
    (if s.backlightPresent then [Ev.backlightWrite true, Ev.delayMs 10] else [])
  else []

/-- GC9A01ADisplay::update (lines 47-177): return early when not ready or
when the SPI component state is failed (0x03); otherwise, since the static
gpio_diagnostics_done is never assigned true anywhere in the source, the
static uint32_t test_delay_counter advances (mod 2^32) and the one-shot
self-test fires whenever it lands on 20; then update_counter_ increments
and the periodic diagnostic report runs. -/
def update (s : DriverState) : DriverState × List Ev :=
  if s.is_ready_ = false then (s, [])
  else if s.componentFailed = true then (s, [])
  else
    let step :=
      if s.gpio_diagnostics_done = false then
        let c := (s.test_delay_counter + 1) % U32
        ({ s with test_delay_counter := c },
         if c = 20 then selfTestTrace else [])
      else (s, [])
    let s2 := { step.1 with update_counter_ := step.1.update_counter_ + 1 }
    (s2, step.2 ++ diagReportTrace s2)

/-- The driver state after n consecutive update calls. -/
def updates (s : DriverState) : Nat → DriverState
  | 0 => s
  | n + 1 => (update (updates s n)).1

/-- The event trace of update call number n + 1 (0-indexed n) from s. -/
def nthUpdateTrace (s : DriverState) (n : Nat) : List Ev :=
  (update (updates s n)).2

/-- GC9A01ADisplay::init_display_ (lines 242-499), transcribed statement by
statement: software reset and sleep-out each followed by delay(120), pixel
format 0x55, MADCTL = BGR, the vendor tuning table, then inversion-on and
normal-mode-on each followed by delay(10) and display-on followed by
delay(120). The reset pin is never written. -/
def init_display_trace : List Ev :=
  write_command_ GC9A01A_SWRESET ++ [Ev.delayMs 120] ++
  write_command_ GC9A01A_SLPOUT ++ [Ev.delayMs 120] ++
  write_command_ GC9A01A_COLMOD ++ write_data_ 0x55 ++
  write_command_ GC9A01A_MADCTL ++ write_data_ GC9A01A_MADCTL_BGR ++
  write_command_ 0xEF ++
  write_command_ 0xEB ++ write_data_ 0x14 ++
  write_command_ 0xFE ++ write_command_ 0xEF ++
  write_command_ 0xEB ++ write_data_ 0x14 ++
  write_command_ 0x84 ++ write_data_ 0x40 ++
  write_command_ 0x85 ++ write_data_ 0xFF ++
  write_command_ 0x86 ++ write_data_ 0xFF ++
  write_command_ 0x87 ++ write_data_ 0xFF ++
  write_command_ 0x88 ++ write_data_ 0x0A ++
  write_command_ 0x89 ++ write_data_ 0x21 ++
  write_command_ 0x8A ++ write_data_ 0x00 ++
  write_command_ 0x8B ++ write_data_ 0x80 ++
  write_command_ 0x8C ++ write_data_ 0x01 ++
  write_command_ 0x8D ++ write_data_ 0x01 ++
  write_command_ 0x8E ++ write_data_ 0xFF ++
  write_command_ 0x8F ++ write_data_ 0xFF ++
  write_command_ 0xB6 ++ write_data_ 0x00 ++ write_data_ 0x20 ++
  write_command_ 0x36 ++ write_data_ GC9A01A_MADCTL_BGR ++
  write_command_ 0x3A ++ write_data_ 0x05 ++
  write_command_ 0x90 ++ write_data_ 0x08 ++ write_data_ 0x08 ++
    write_data_ 0x08 ++ write_data_ 0x08 ++
  write_command_ 0xBD ++ write_data_ 0x06 ++
  write_command_ 0xBC ++ write_data_ 0x00 ++
  write_command_ 0xFF ++ write_data_ 0x60 ++ write_data_ 0x01 ++
    write_data_ 0x04 ++
  write_command_ 0xC3 ++ write_data_ 0x13 ++
  write_command_ 0xC4 ++ write_data_ 0x13 ++
  write_command_ 0xC9 ++ write_data_ 0x22 ++
  write_command_ 0xBE ++ write_data_ 0x11 ++
  write_command_ 0xE1 ++ write_data_ 0x10 ++ write_data_ 0x0E ++
  write_command_ 0xDF ++ write_data_ 0x21 ++ write_data_ 0x0C ++
    write_data_ 0x02 ++
  write_command_ 0xF0 ++ write_data_ 0x45 ++ write_data_ 0x09 ++
    write_data_ 0x08 ++ write_data_ 0x08 ++ write_data_ 0x26 ++
    write_data_ 0x2A ++
  write_command_ 0xF1 ++ write_data_ 0x43 ++ write_data_ 0x70 ++
    write_data_ 0x72 ++ write_data_ 0x36 ++ write_data_ 0x37 ++
    write_data_ 0x6F ++
  write_command_ 0xF2 ++ write_data_ 0x45 ++ write_data_ 0x09 ++
    write_data_ 0x08 ++ write_data_ 0x08 ++ write_data_ 0x26 ++
    write_data_ 0x2A ++
  write_command_ 0xF3 ++ write_data_ 0x43 ++ write_data_ 0x70 ++
    write_data_ 0x72 ++ write_data_ 0x36 ++ write_data_ 0x37 ++
    write_data_ 0x6F ++
  write_command_ 0xED ++ write_data_ 0x1B ++ write_data_ 0x0B ++
  write_command_ 0xAE ++ write_data_ 0x77 ++
  write_command_ 0xCD ++ write_data_ 0x63 ++
  write_command_ 0x70 ++ write_data_ 0x07 ++ write_data_ 0x07 ++
    write_data_ 0x04 ++ write_data_ 0x0E ++ write_data_ 0x0F ++
    write_data_ 0x09 ++ write_data_ 0x07 ++ write_data_ 0x08 ++
    write_data_ 0x03 ++
  write_command_ 0xE8 ++ write_data_ 0x34 ++
  write_command_ 0x62 ++ write_data_ 0x18 ++ write_data_ 0x0D ++
    write_data_ 0x71 ++ write_data_ 0xED ++ write_data_ 0x70 ++
    write_data_ 0x70 ++ write_data_ 0x18 ++ write_data_ 0x0F ++
    write_data_ 0x71 ++ write_data_ 0xEF ++ write_data_ 0x70 ++
    write_data_ 0x70 ++
  write_command_ 0x63 ++ write_data_ 0x18 ++ write_data_ 0x11 ++
    write_data_ 0x71 ++ write_data_ 0xF1 ++ write_data_ 0x70 ++
    write_data_ 0x70 ++ write_data_ 0x18 ++ write_data_ 0x13 ++
    write_data_ 0x71 ++ write_data_ 0xF3 ++ write_data_ 0x70 ++
    write_data_ 0x70 ++
  write_command_ 0x64 ++ write_data_ 0x28 ++ write_data_ 0x29 ++
    write_data_ 0xF1 ++ write_data_ 0x01 ++ write_data_ 0xF1 ++
    write_data_ 0x00 ++ write_data_ 0x07 ++
  write_command_ 0x66 ++ write_data_ 0x3C ++ write_data_ 0x00 ++
    write_data_ 0xCD ++ write_data_ 0x67 ++ write_data_ 0x45 ++
    write_data_ 0x45 ++ write_data_ 0x10 ++ write_data_ 0x00 ++
    write_data_ 0x00 ++ write_data_ 0x00 ++
  write_command_ 0x67 ++ write_data_ 0x00 ++ write_data_ 0x3C ++
    write_data_ 0x00 ++ write_data_ 0x00 ++ write_data_ 0x00 ++
    write_data_ 0x01 ++ write_data_ 0x54 ++ write_data_ 0x10 ++
    write_data_ 0x32 ++ write_data_ 0x98 ++
  write_command_ 0x74 ++ write_data_ 0x10 ++ write_data_ 0x85 ++
    write_data_ 0x80 ++ write_data_ 0x00 ++ write_data_ 0x00 ++
    write_data_ 0x4E ++ write_data_ 0x00 ++
  write_command_ 0x98 ++ write_data_ 0x3E ++ write_data_ 0x07 ++
  write_command_ GC9A01A_INVON ++ [Ev.delayMs 10] ++
  write_command_ GC9A01A_NORON ++ [Ev.delayMs 10] ++
  write_command_ GC9A01A_DISPON ++ [Ev.delayMs 120]

/-- One step of the initialization script, as structured data: a command
byte, its parameter bytes, and a settle delay in ms (0 = none). -/
structure InitStep where
  cmd : Nat
  params : List Nat
  settle : Nat
deriving DecidableEq, Repr

/-- Replay one InitStep: command write, parameter writes, optional delay. -/
def runStep (st : InitStep) : List Ev :=
  write_command_ st.cmd ++ (st.params.map write_data_).flatten ++
    (if st.settle = 0 then [] else [Ev.delayMs st.settle])

/-- The full initialization sequence as an ordered script (the spec form of
the amended C5): software reset with settle, wake with settle, pixel format,
memory access control, the vendor tuning table in source order, then
inversion-on, normal-mode-on and display-on with their settle delays. -/
def initScript : List InitStep :=
  [InitStep.mk GC9A01A_SWRESET [] 120,
   InitStep.mk GC9A01A_SLPOUT [] 120,
   InitStep.mk GC9A01A_COLMOD [0x55] 0,
   InitStep.mk GC9A01A_MADCTL [GC9A01A_MADCTL_BGR] 0,
   InitStep.mk 0xEF [] 0,
   InitStep.mk 0xEB [0x14] 0,
   InitStep.mk 0xFE [] 0,
   InitStep.mk 0xEF [] 0,
   InitStep.mk 0xEB [0x14] 0,
   InitStep.mk 0x84 [0x40] 0,
   InitStep.mk 0x85 [0xFF] 0,
   InitStep.mk 0x86 [0xFF] 0,
   InitStep.mk 0x87 [0xFF] 0,
   InitStep.mk 0x88 [0x0A] 0,
   InitStep.mk 0x89 [0x21] 0,
   InitStep.mk 0x8A [0x00] 0,
   InitStep.mk 0x8B [0x80] 0,
   InitStep.mk 0x8C [0x01] 0,
   InitStep.mk 0x8D [0x01] 0,
   InitStep.mk 0x8E [0xFF] 0,
   InitStep.mk 0x8F [0xFF] 0,
   InitStep.mk 0xB6 [0x00, 0x20] 0,
   InitStep.mk 0x36 [GC9A01A_MADCTL_BGR] 0,
   InitStep.mk 0x3A [0x05] 0,
   InitStep.mk 0x90 [0x08, 0x08, 0x08, 0x08] 0,
   InitStep.mk 0xBD [0x06] 0,
   InitStep.mk 0xBC [0x00] 0,
   InitStep.mk 0xFF [0x60, 0x01, 0x04] 0,
   InitStep.mk 0xC3 [0x13] 0,
   InitStep.mk 0xC4 [0x13] 0,
   InitStep.mk 0xC9 [0x22] 0,
   InitStep.mk 0xBE [0x11] 0,
   InitStep.mk 0xE1 [0x10, 0x0E] 0,
   InitStep.mk 0xDF [0x21, 0x0C, 0x02] 0,
   InitStep.mk 0xF0 [0x45, 0x09, 0x08, 0x08, 0x26, 0x2A] 0,
   InitStep.mk 0xF1 [0x43, 0x70, 0x72, 0x36, 0x37, 0x6F] 0,
   InitStep.mk 0xF2 [0x45, 0x09, 0x08, 0x08, 0x26, 0x2A] 0,
   InitStep.mk 0xF3 [0x43, 0x70, 0x72, 0x36, 0x37, 0x6F] 0,
   InitStep.mk 0xED [0x1B, 0x0B] 0,
   InitStep.mk 0xAE [0x77] 0,
   InitStep.mk 0xCD [0x63] 0,
   InitStep.mk 0x70 [0x07, 0x07, 0x04, 0x0E, 0x0F, 0x09, 0x07, 0x08, 0x03] 0,
   InitStep.mk 0xE8 [0x34] 0,
   InitStep.mk 0x62
     [0x18, 0x0D, 0x71, 0xED, 0x70, 0x70, 0x18, 0x0F, 0x71, 0xEF, 0x70, 0x70] 0,
   InitStep.mk 0x63
     [0x18, 0x11, 0x71, 0xF1, 0x70, 0x70, 0x18, 0x13, 0x71, 0xF3, 0x70, 0x70] 0,
   InitStep.mk 0x64 [0x28, 0x29, 0xF1, 0x01, 0xF1, 0x00, 0x07] 0,
   InitStep.mk 0x66
     [0x3C, 0x00, 0xCD, 0x67, 0x45, 0x45, 0x10, 0x00, 0x00, 0x00] 0,
   InitStep.mk 0x67
     [0x00, 0x3C, 0x00, 0x00, 0x00, 0x01, 0x54, 0x10, 0x32, 0x98] 0,
   InitStep.mk 0x74 [0x10, 0x85, 0x80, 0x00, 0x00, 0x4E, 0x00] 0,
   InitStep.mk 0x98 [0x3E, 0x07] 0,
   InitStep.mk GC9A01A_INVON [] 10,
   InitStep.mk GC9A01A_NORON [] 10,
   InitStep.mk GC9A01A_DISPON [] 120]

/-- Pin configuration at construction: whether each handle is bound. -/
structure PinConfig where
  dcPresent : Bool
  resetPresent : Bool
  backlightPresent : Bool
deriving DecidableEq, Repr

/-- Driver state as constructed, before setup runs. -/
def initialState (p : PinConfig) : DriverState :=
  { is_ready_ := false, componentFailed := false,
    backlightPresent := p.backlightPresent, gpio_diagnostics_done := false,
    test_delay_counter := 0, update_counter_ := 0 }

/-- A concrete driver state on which setup has not completed. -/
def notReadyState : DriverState := initialState (PinConfig.mk true true false)

/-- GC9A01ADisplay::setup (lines 12-45): spi_setup, then dc_pin_->setup()
dereferenced unconditionally — with no DC pin bound this is a null-pointer
dereference, modelled as setup producing no result — then optional
backlight setup and write, init_display_, is_ready_ = true, and a red test
fill. No presence check is made for any pin and the reset pin is never
touched. -/
def setup (p : PinConfig) : Option (DriverState × List Ev) :=
  if p.dcPresent = false then none
  else
    some ((fill { initialState p with is_ready_ := true }
        (Color.mk 255 0 0 0)).2,
      ([Ev.spiSetup, Ev.dcPinSetup] ++
        (if p.backlightPresent then
          [Ev.backlightPinSetup, Ev.backlightWrite true] else [])) ++
       (init_display_trace ++
         (fill { initialState p with is_ready_ := true }
           (Color.mk 255 0 0 0)).1))

end GC9A01A

namespace GC9A01A

/-- The repeated byte stream of write_color_ is count copies of the
(high byte, low byte) pair. -/
theorem burstBytes_eq_replicate (hi lo : Nat) (n : Nat) :
    burstBytes hi lo n =
      (List.replicate n [Ev.writeByte hi, Ev.writeByte lo]).flatten := by
  induction n with
  | zero => rfl
  | succ k ih => simp [burstBytes, List.replicate_succ, ih]

/-- The burst byte stream consists only of wire bytes. -/
theorem burstBytes_isMap (hi lo : Nat) (n : Nat) :
    ∃ p : List Nat, burstBytes hi lo n = p.map Ev.writeByte := by
  induction n with
  | zero => exact ⟨[], rfl⟩
  | succ k ih =>
      obtain ⟨p, hp⟩ := ih
      exact ⟨hi :: lo :: p, by simp [burstBytes, hp]⟩

/-- Counting enables distributes over trace concatenation. -/
theorem countEnable_append (a b : List Ev) :
    countEnable (a ++ b) = countEnable a + countEnable b := by
  simp [countEnable, List.filter_append]

/-- Counting disables distributes over trace concatenation. -/
theorem countDisable_append (a b : List Ev) :
    countDisable (a ++ b) = countDisable a + countDisable b := by
  simp [countDisable, List.filter_append]

/-- The pixel-byte stream of a burst contains no bus-ownership begin. -/
theorem countEnable_burstBytes (hi lo : Nat) (n : Nat) :
    countEnable (burstBytes hi lo n) = 0 := by
  induction n with
  | zero => rfl
  | succ k ih => simpa [burstBytes, countEnable, isEnable, List.filter_cons] using ih

/-- The pixel-byte stream of a burst contains no bus-ownership end. -/
theorem countDisable_burstBytes (hi lo : Nat) (n : Nat) :
    countDisable (burstBytes hi lo n) = 0 := by
  induction n with
  | zero => rfl
  | succ k ih => simpa [burstBytes, countDisable, isDisable, List.filter_cons] using ih

/-- The converted color always fits in 16 bits. -/
theorem c565_lt (c : Color) : color_to_565_ c < 65536 := by
  have hor : ∀ x y : Nat, x < 65536 → y < 65536 → (x ||| y) < 65536 := by
    intro x y hx hy
    have hb := Nat.bitwise_lt (f := or) (n := 16) (x := x) (y := y)
      (by norm_num; omega) (by norm_num; omega)
    have e : x ||| y = Nat.bitwise or x y := rfl
    rw [e]; norm_num at hb; omega
  have s1 : ((c.red % 256) * 31 / 255) <<< 11 < 65536 := by
    have h := Nat.shiftLeft_lt (m := 11)
      (show (c.red % 256) * 31 / 255 < 2 ^ 5 by norm_num; omega)
    norm_num at h; omega
  have s2 : ((c.green % 256) * 63 / 255) <<< 5 < 65536 := by
    have h := Nat.shiftLeft_lt (m := 5)
      (show (c.green % 256) * 63 / 255 < 2 ^ 6 by norm_num; omega)
    norm_num at h; omega
  have s3 : (c.blue % 256) * 31 / 255 < 65536 := by omega
  simp only [color_to_565_]
  exact hor _ _ (hor _ _ s1 s2) s3

/-- C1: the color converter returns (floor(red*31/255) << 11) |
(floor(green*63/255) << 5) | floor(blue*31/255); each scaled field stays
within its 5/6/5-bit width; the five example conversions hold. -/
theorem C1_color_to_565 (c : Color)
    (hr : c.red < 256) (hg : c.green < 256) (hb : c.blue < 256) :
    color_to_565_ c =
      ((c.red * 31 / 255) <<< 11) ||| ((c.green * 63 / 255) <<< 5) |||
        (c.blue * 31 / 255) ∧
    c.red * 31 / 255 ≤ 31 ∧ c.green * 63 / 255 ≤ 63 ∧ c.blue * 31 / 255 ≤ 31 ∧
    color_to_565_ (Color.mk 255 0 0 0) = 0xF800 ∧
    color_to_565_ (Color.mk 0 255 0 0) = 0x07E0 ∧
    color_to_565_ (Color.mk 0 0 255 0) = 0x001F ∧
    color_to_565_ (Color.mk 0 0 0 0) = 0x0000 ∧
    color_to_565_ (Color.mk 255 255 255 0) = 0xFFFF := by
  refine ⟨?_, ?_, ?_, ?_, by decide, by decide, by decide, by decide, by decide⟩
  · simp [color_to_565_, Nat.mod_eq_of_lt hr, Nat.mod_eq_of_lt hg,
      Nat.mod_eq_of_lt hb]
  · omega
  · omega
  · omega

/-- Witness for C1 at the concrete input (200, 100, 50, 0). -/
theorem C1_color_to_565_witness :
    color_to_565_ (Color.mk 200 100 50 0) =
      ((200 * 31 / 255) <<< 11) ||| ((100 * 63 / 255) <<< 5) |||
        (50 * 31 / 255) ∧
    200 * 31 / 255 ≤ 31 ∧ 100 * 63 / 255 ≤ 63 ∧ 50 * 31 / 255 ≤ 31 ∧
    color_to_565_ (Color.mk 255 0 0 0) = 0xF800 ∧
    color_to_565_ (Color.mk 0 255 0 0) = 0x07E0 ∧
    color_to_565_ (Color.mk 0 0 255 0) = 0x001F ∧
    color_to_565_ (Color.mk 0 0 0 0) = 0x0000 ∧
    color_to_565_ (Color.mk 255 255 255 0) = 0xFFFF :=
  C1_color_to_565 (Color.mk 200 100 50 0) (by decide) (by decide) (by decide)

/-- C10: the conversion depends only on red, green and blue: two colors
agreeing on those three channels convert identically, and fill and draw
then emit identical traces and states. -/
theorem C10_white_independent (c1 c2 : Color) (s : DriverState) (x y : Int)
    (hr : c1.red = c2.red) (hg : c1.green = c2.green) (hb : c1.blue = c2.blue) :
    color_to_565_ c1 = color_to_565_ c2 ∧
    fill s c1 = fill s c2 ∧
    draw_absolute_pixel_internal s x y c1 =
      draw_absolute_pixel_internal s x y c2 := by
  have hc : color_to_565_ c1 = color_to_565_ c2 := by
    simp [color_to_565_, hr, hg, hb]
  refine ⟨hc, ?_, ?_⟩
  · simp [fill, hc]
  · simp [draw_absolute_pixel_internal, hc]

/-- C4: every command or data exchange writes the command/data select line
to its required level strictly before the bus-ownership begin, the payload
between begin and end is wire bytes only (no later select-line change), and
begin/end are paired around the transfer on every path. -/
theorem C4_dc_before_begin (b d w c n : Nat) :
    (∃ p : List Nat, write_command_ b =
      Ev.dcWrite false :: Ev.enable :: (p.map Ev.writeByte ++ [Ev.disable])) ∧
    (∃ p : List Nat, write_data_ d =
      Ev.dcWrite true :: Ev.enable :: (p.map Ev.writeByte ++ [Ev.disable])) ∧
    (∃ p : List Nat, write_data_16_ w =
      Ev.dcWrite true :: Ev.enable :: (p.map Ev.writeByte ++ [Ev.disable])) ∧
    (∃ p : List Nat, write_color_ c n =
      Ev.dcWrite true :: Ev.enable :: (p.map Ev.writeByte ++ [Ev.disable])) := by
  refine ⟨⟨[b % 256], rfl⟩, ⟨[d % 256], rfl⟩,
    ⟨[w % 65536 / 256, w % 256], rfl⟩, ?_⟩
  obtain ⟨p, hp⟩ := burstBytes_isMap (c % 65536 / 256) (c % 256) n
  exact ⟨p, by simp [write_color_, hp]⟩

/-- C3: for a valid window, the address-window setter emits the
column-address-set command, x1 and x2 as big-endian 16-bit words, the
row-address-set command, y1 and y2 as big-endian 16-bit words, then the
memory-write command, in that order. -/
theorem C3_set_addr_window (x1 y1 x2 y2 : Nat)
    (h1 : x1 ≤ x2) (h2 : x2 ≤ 239) (h3 : y1 ≤ y2) (h4 : y2 ≤ 239) :
    set_addr_window_ x1 y1 x2 y2 =
      [Ev.dcWrite false, Ev.enable, Ev.writeByte GC9A01A_CASET, Ev.disable,
       Ev.dcWrite true, Ev.enable, Ev.writeByte (x1 / 256),
         Ev.writeByte (x1 % 256), Ev.disable,
       Ev.dcWrite true, Ev.enable, Ev.writeByte (x2 / 256),
         Ev.writeByte (x2 % 256), Ev.disable,
       Ev.dcWrite false, Ev.enable, Ev.writeByte GC9A01A_RASET, Ev.disable,
       Ev.dcWrite true, Ev.enable, Ev.writeByte (y1 / 256),
         Ev.writeByte (y1 % 256), Ev.disable,
       Ev.dcWrite true, Ev.enable, Ev.writeByte (y2 / 256),
         Ev.writeByte (y2 % 256), Ev.disable,
       Ev.dcWrite false, Ev.enable, Ev.writeByte GC9A01A_RAMWR, Ev.disable] := by
  have e1 : x1 % 65536 = x1 := Nat.mod_eq_of_lt (by omega)
  have e2 : x2 % 65536 = x2 := Nat.mod_eq_of_lt (by omega)
  have e3 : y1 % 65536 = y1 := Nat.mod_eq_of_lt (by omega)
  have e4 : y2 % 65536 = y2 := Nat.mod_eq_of_lt (by omega)
  simp [set_addr_window_, write_command_, write_data_16_, e1, e2, e3, e4,
    GC9A01A_CASET, GC9A01A_RASET, GC9A01A_RAMWR]

/-- Witness for C3 at the concrete window (5, 7, 100, 200). -/
theorem C3_set_addr_window_witness :
    set_addr_window_ 5 7 100 200 =
      [Ev.dcWrite false, Ev.enable, Ev.writeByte GC9A01A_CASET, Ev.disable,
       Ev.dcWrite true, Ev.enable, Ev.writeByte (5 / 256),
         Ev.writeByte (5 % 256), Ev.disable,
       Ev.dcWrite true, Ev.enable, Ev.writeByte (100 / 256),
         Ev.writeByte (100 % 256), Ev.disable,
       Ev.dcWrite false, Ev.enable, Ev.writeByte GC9A01A_RASET, Ev.disable,
       Ev.dcWrite true, Ev.enable, Ev.writeByte (7 / 256),
         Ev.writeByte (7 % 256), Ev.disable,
       Ev.dcWrite true, Ev.enable, Ev.writeByte (200 / 256),
         Ev.writeByte (200 % 256), Ev.disable,
       Ev.dcWrite false, Ev.enable, Ev.writeByte GC9A01A_RAMWR, Ev.disable] :=
  C3_set_addr_window 5 7 100 200 (by decide) (by decide) (by decide) (by decide)

/-- C2: when the driver is ready, fill sets the address window once to the
full panel (0,0)-(239,239) and then, inside a single begin/end bracket,
writes exactly 240*240 = 57600 repetitions of (high byte, low byte) of the
converted color; the driver state is unchanged. -/
theorem C2_fill_full_panel (s : DriverState) (c : Color) (h : s.is_ready_ = true) :
    (fill s c).1 =
      set_addr_window_ 0 0 239 239 ++
        (Ev.dcWrite true :: Ev.enable ::
          ((List.replicate 57600
              [Ev.writeByte (color_to_565_ c / 256),
               Ev.writeByte (color_to_565_ c % 256)]).flatten ++ [Ev.disable])) ∧
    countEnable (write_color_ (color_to_565_ c) 57600) = 1 ∧
    countDisable (write_color_ (color_to_565_ c) 57600) = 1 ∧
    (fill s c).2 = s := by
  have hm : color_to_565_ c % 65536 = color_to_565_ c := Nat.mod_eq_of_lt (c565_lt c)
  have hf : fill s c =
      (set_addr_window_ 0 0 239 239 ++ write_color_ (color_to_565_ c) 57600, s) := by
    unfold fill
    rw [h]
    norm_num [GC9A01A_WIDTH, GC9A01A_HEIGHT]
  refine ⟨?_, ?_, ?_, ?_⟩
  · rw [hf]
    simp only [write_color_, burstBytes_eq_replicate, hm, List.cons_append,
      List.nil_append]
  · simp only [write_color_, countEnable_append, countEnable_burstBytes]
    rfl
  · simp only [write_color_, countDisable_append, countDisable_burstBytes]
    rfl
  · rw [hf]

/-- Witness for C2 at the ready state and the color (1, 2, 3, 4). -/
theorem C2_fill_full_panel_witness :
    (fill readyTestState (Color.mk 1 2 3 4)).1 =
      set_addr_window_ 0 0 239 239 ++
        (Ev.dcWrite true :: Ev.enable ::
          ((List.replicate 57600
              [Ev.writeByte (color_to_565_ (Color.mk 1 2 3 4) / 256),
               Ev.writeByte (color_to_565_ (Color.mk 1 2 3 4) % 256)]).flatten ++
            [Ev.disable])) ∧
    countEnable (write_color_ (color_to_565_ (Color.mk 1 2 3 4)) 57600) = 1 ∧
    countDisable (write_color_ (color_to_565_ (Color.mk 1 2 3 4)) 57600) = 1 ∧
    (fill readyTestState (Color.mk 1 2 3 4)).2 = readyTestState :=
  C2_fill_full_panel readyTestState (Color.mk 1 2 3 4) rfl

/-- fill never mutates any driver member: its state component is its input. -/
theorem fill_snd (s : DriverState) (c : Color) : (fill s c).2 = s := by
  unfold fill
  split <;> rfl

/-- Counting reset-pin writes distributes over trace concatenation. -/
theorem countResetWrites_append (a b : List Ev) :
    countResetWrites (a ++ b) = countResetWrites a + countResetWrites b := by
  simp [countResetWrites, List.filter_append]

/-- The pixel burst byte stream contains no reset-pin write. -/
theorem countResetWrites_burstBytes (hi lo : Nat) (n : Nat) :
    countResetWrites (burstBytes hi lo n) = 0 := by
  induction n with
  | zero => rfl
  | succ k ih =>
      simpa [burstBytes, countResetWrites, isResetWrite, List.filter_cons] using ih

/-- A color burst contains no reset-pin write. -/
theorem countResetWrites_write_color (c n : Nat) :
    countResetWrites (write_color_ c n) = 0 := by
  simp only [write_color_, countResetWrites_append, countResetWrites_burstBytes]
  rfl

/-- A fill emits no reset-pin write on any path. -/
theorem countResetWrites_fill (s : DriverState) (c : Color) :
    countResetWrites (fill s c).1 = 0 := by
  cases hs : s.is_ready_ with
  | false =>
      unfold fill
      rw [hs]
      rfl
  | true =>
      have hf : fill s c =
          (set_addr_window_ 0 0 239 239 ++
            write_color_ (color_to_565_ c) 57600, s) := by
        unfold fill
        rw [hs]
        norm_num [GC9A01A_WIDTH, GC9A01A_HEIGHT]
      rw [hf]
      simp only [countResetWrites_append, countResetWrites_write_color]
      decide

/-- A single command write contains no reset-pin write. -/
theorem countResetWrites_write_command (c : Nat) :
    countResetWrites (write_command_ c) = 0 := rfl

/-- A single data write contains no reset-pin write. -/
theorem countResetWrites_write_data (d : Nat) :
    countResetWrites (write_data_ d) = 0 := rfl

/-- A settle delay contains no reset-pin write. -/
theorem countResetWrites_delay (n : Nat) :
    countResetWrites [Ev.delayMs n] = 0 := rfl

set_option maxRecDepth 8000 in
/-- The whole initialization sequence writes the reset pin zero times. -/
theorem countResetWrites_init : countResetWrites init_display_trace = 0 := by
  simp only [init_display_trace, countResetWrites_append,
    countResetWrites_write_command, countResetWrites_write_data,
    countResetWrites_delay]

/-- The value of setup when the DC pin is bound: the completed state and
the full event trace (prelude, initialization, red test fill). -/
theorem setup_eq (p : PinConfig) (h : p.dcPresent = true) :
    setup p = some
      ((fill { initialState p with is_ready_ := true }
          (Color.mk 255 0 0 0)).2,
       ([Ev.spiSetup, Ev.dcPinSetup] ++
         (if p.backlightPresent then
           [Ev.backlightPinSetup, Ev.backlightWrite true] else [])) ++
        (init_display_trace ++
          (fill { initialState p with is_ready_ := true }
            (Color.mk 255 0 0 0)).1)) := by
  unfold setup
  rw [h]
  rfl

/-- Any successful setup writes the reset pin zero times. -/
theorem setup_no_reset_writes (p : PinConfig) (h : p.dcPresent = true) :
    Option.map (fun r => countResetWrites r.2) (setup p) = some 0 := by
  rw [setup_eq p h]
  simp only [Option.map_some', Option.some.injEq]
  rw [countResetWrites_append, countResetWrites_append, countResetWrites_append,
    countResetWrites_fill, countResetWrites_init]
  have hpre : countResetWrites
      (if p.backlightPresent then
        [Ev.backlightPinSetup, Ev.backlightWrite true] else []) = 0 := by
    cases hb : p.backlightPresent <;> rfl
  rw [hpre]
  decide

/-- C5 counterexample: a complete successful setup writes the reset pin
zero times, refuting the claimed assert/hold/release reset-pin step. -/
theorem C5_counterexample :
    (setup (PinConfig.mk true true true)).isSome = true ∧
    Option.map (fun r => countResetWrites r.2)
      (setup (PinConfig.mk true true true)) = some 0 :=
  ⟨rfl, setup_no_reset_writes (PinConfig.mk true true true) rfl⟩

set_option maxRecDepth 8000 in
/-- C5 (amended): setup runs the initialization sequence exactly once as a
linear script in the source order — a software-reset command with settle
delay (the reset pin is never toggled), sleep-out with settle delay, pixel
format, memory-access-control constant, the vendor tuning table bit-exact
and in order, then inversion-on, normal-mode-on and display-on each with
its own settle delay — equal to the ordered replay of the initScript
table. -/
theorem C5_init_linear (p : PinConfig) (h : p.dcPresent = true) :
    init_display_trace = (initScript.map runStep).flatten ∧
    Option.map (fun r => r.2) (setup p) =
      some (([Ev.spiSetup, Ev.dcPinSetup] ++
        (if p.backlightPresent then
          [Ev.backlightPinSetup, Ev.backlightWrite true] else [])) ++
        (init_display_trace ++
          (fill { initialState p with is_ready_ := true }
            (Color.mk 255 0 0 0)).1)) := by
  constructor
  · decide
  · rw [setup_eq p h]
    rfl

/-- Witness for C5 at the all-pins-bound configuration. -/
theorem C5_init_linear_witness :
    init_display_trace = (initScript.map runStep).flatten ∧
    Option.map (fun r => r.2) (setup (PinConfig.mk true true true)) =
      some (([Ev.spiSetup, Ev.dcPinSetup] ++
        (if (PinConfig.mk true true true).backlightPresent then
          [Ev.backlightPinSetup, Ev.backlightWrite true] else [])) ++
        (init_display_trace ++
          (fill { initialState (PinConfig.mk true true true) with
            is_ready_ := true } (Color.mk 255 0 0 0)).1)) :=
  C5_init_linear (PinConfig.mk true true true) rfl

/-- C6: a draw call that is out of bounds or made before the driver is
ready, and a fill call made before the driver is ready, perform no bus
transaction (empty trace) and leave the driver state unchanged, silently. -/
theorem C6_noop_gating (s t : DriverState) (c : Color) (x y : Int)
    (hdraw : s.is_ready_ = false ∨ x < 0 ∨ 240 ≤ x ∨ y < 0 ∨ 240 ≤ y)
    (hfill : t.is_ready_ = false) :
    draw_absolute_pixel_internal s x y c = ([], s) ∧ fill t c = ([], t) := by
  constructor
  · unfold draw_absolute_pixel_internal
    rcases hdraw with hr | hoob
    · by_cases hb : x < 0 ∨ 240 ≤ x ∨ y < 0 ∨ 240 ≤ y
      · rw [if_pos hb]
      · rw [if_neg hb, hr]
        simp
    · rw [if_pos hoob]
  · unfold fill
    rw [hfill]
    simp

/-- Witness for C6: out-of-bounds x = 240 on a ready driver, and a fill on
a not-ready driver. -/
theorem C6_noop_gating_witness :
    draw_absolute_pixel_internal readyTestState 240 0 (Color.mk 9 9 9 0) =
      ([], readyTestState) ∧
    fill notReadyState (Color.mk 9 9 9 0) = ([], notReadyState) :=
  C6_noop_gating readyTestState notReadyState (Color.mk 9 9 9 0) 240 0
    (Or.inr (Or.inr (Or.inl (by decide)))) rfl

/-- Closed form of the driver state after n update calls from the fresh
ready state: always ready, tick counter n mod 2^32, update count n. -/
theorem updates_readyTestState (n : Nat) :
    updates readyTestState n =
      { is_ready_ := true, componentFailed := false, backlightPresent := false,
        gpio_diagnostics_done := false, test_delay_counter := n % U32,
        update_counter_ := n } := by
  induction n with
  | zero => rfl
  | succ k ih =>
      show (update (updates readyTestState k)).1 = _
      rw [ih]
      have hm : (k % U32 + 1) % U32 = (k + 1) % U32 := by unfold U32; omega
      simp [update, hm]

/-- From the fresh ready state, update call n + 1 runs the self-test iff
n + 1 is congruent to 20 modulo 2^32. -/
theorem selfTest_fires_iff (n : Nat) :
    selfTestIn (nthUpdateTrace readyTestState n) = true ↔ (n + 1) % U32 = 20 := by
  unfold nthUpdateTrace
  rw [updates_readyTestState]
  have hm : (n % U32 + 1) % U32 = (n + 1) % U32 := by unfold U32; omega
  by_cases h20 : (n + 1) % U32 = 20
  · simp [update, hm, h20, selfTestIn, selfTestTrace, diagReportTrace, isRead]
  · simp [update, hm, h20, selfTestIn, diagReportTrace]

/-- C7: from a freshly ready driver the self-test fires on no update call
before the 20th and does fire on the 20th, and readiness is never changed;
but because gpio_diagnostics_done is never assigned true in the source, the
self-test fires again on update call 2^32 + 20, when the static uint32_t
tick counter wraps back to 20 — the failing input of the code bug. -/
theorem C7_selftest_refires :
    ((List.range 19).all
      (fun n => !(selfTestIn (nthUpdateTrace readyTestState n)))) = true ∧
    selfTestIn (nthUpdateTrace readyTestState 19) = true ∧
    selfTestIn (nthUpdateTrace readyTestState (U32 + 19)) = true ∧
    (updates readyTestState (U32 + 20)).is_ready_ = true := by
  refine ⟨by decide, by decide, ?_, ?_⟩
  · exact (selfTest_fires_iff (U32 + 19)).2 (by unfold U32; decide)
  · rw [updates_readyTestState]

/-- C8 counterexample: on an update call made while the driver is not
ready, the tick counter does not advance, refuting "increments exactly once
on every call to update". -/
theorem C8_counterexample :
    (update notReadyState).1.update_counter_ ≠
      notReadyState.update_counter_ + 1 := by
  decide

/-- C8 (amended): update_tick_count increments exactly once on every update
call that passes the readiness and component-status guards, is unchanged on
calls rejected by those guards, and never decreases. -/
theorem C8_tick_increment (s t u : DriverState)
    (hs1 : s.is_ready_ = true) (hs2 : s.componentFailed = false)
    (ht : t.is_ready_ = false ∨ t.componentFailed = true) :
    (update s).1.update_counter_ = s.update_counter_ + 1 ∧
    (update t).1.update_counter_ = t.update_counter_ ∧
    u.update_counter_ ≤ (update u).1.update_counter_ := by
  refine ⟨?_, ?_, ?_⟩
  · cases hg : s.gpio_diagnostics_done <;> simp [update, hs1, hs2, hg]
  · rcases ht with h | h
    · simp [update, h]
    · cases hr : t.is_ready_ <;> simp [update, hr, h]
  · cases hr : u.is_ready_ <;> cases hc : u.componentFailed <;>
      cases hg : u.gpio_diagnostics_done <;> simp [update, hr, hc, hg]

/-- Witness for C8: a ready call increments, a not-ready call does not. -/
theorem C8_tick_increment_witness :
    (update readyTestState).1.update_counter_ =
      readyTestState.update_counter_ + 1 ∧
    (update notReadyState).1.update_counter_ =
      notReadyState.update_counter_ ∧
    notReadyState.update_counter_ ≤ (update notReadyState).1.update_counter_ :=
  C8_tick_increment readyTestState notReadyState notReadyState rfl rfl
    (Or.inl rfl)

/-- C9 counterexample: with the DC pin bound but the reset pin absent,
setup completes and the driver becomes Ready, refuting the claim that setup
must not proceed to Ready when a required pin is absent. -/
theorem C9_counterexample :
    (setup (PinConfig.mk true false false)).isSome = true ∧
    Option.map (fun r => r.1.is_ready_)
      (setup (PinConfig.mk true false false)) = some true := by
  exact ⟨rfl, rfl⟩

/-- C9 (amended): setup performs no pin-presence validation: when the DC
pin is absent, setup never completes (the unconditional dereference of the
DC handle) and the driver never reaches Ready; when the DC pin is present,
setup reaches Ready regardless of whether the reset pin is bound. -/
theorem C9_no_pin_check (p : PinConfig) :
    (p.dcPresent = false → setup p = none) ∧
    (p.dcPresent = true →
      Option.map (fun r => r.1.is_ready_) (setup p) = some true) := by
  constructor
  · intro h
    unfold setup
    rw [h]
    rfl
  · intro h
    rw [setup_eq p h]
    rfl

/-- Witness for C9: DC pin absent on one side, all pins bound on the
other. -/
theorem C9_no_pin_check_witness :
    setup (PinConfig.mk false true true) = none ∧
    Option.map (fun r => r.1.is_ready_)
      (setup (PinConfig.mk true true true)) = some true :=
  ⟨(C9_no_pin_check (PinConfig.mk false true true)).1 rfl,
   (C9_no_pin_check (PinConfig.mk true true true)).2 rfl⟩

/-- Witness for C10: colors differing only in the white channel, in the
ready state, at pixel (3, 4). -/
theorem C10_white_independent_witness :
    color_to_565_ (Color.mk 10 20 30 0) = color_to_565_ (Color.mk 10 20 30 255) ∧
    fill readyTestState (Color.mk 10 20 30 0) =
      fill readyTestState (Color.mk 10 20 30 255) ∧
    draw_absolute_pixel_internal readyTestState 3 4 (Color.mk 10 20 30 0) =
      draw_absolute_pixel_internal readyTestState 3 4 (Color.mk 10 20 30 255) :=
  C10_white_independent (Color.mk 10 20 30 0) (Color.mk 10 20 30 255)
    readyTestState 3 4 rfl rfl rfl

end GC9A01A
